import Mathlib

/-!
Shallow embedding of modelcluster/queryset.py (django-modelcluster).

The Python module defines a family of test-function constructors
(test_exact, test_iexact, ..., test_gte), a dispatch table
FILTER_EXPRESSION_TOKENS, a parser _build_test_function_from_filter, and the
in-memory FakeQuerySet class with filter / exclude / get / values_list /
count and a _result_cache property.

Embedding decisions, recorded once here:

* Python objects that can appear as attribute values or as filter
  comparison values are modelled by the inductive type Value: integers,
  strings, the Python None, and references to model instances.  A model
  instance reference (PyObj) carries a numeric identity (ref, standing for
  the object address that the Python operator "is" compares), a class
  identifier (cls), the list of ancestor class identifiers including the
  class itself (ancestors, standing for the method-resolution order that
  isinstance consults), and an optional primary key (pk; none models an
  unsaved instance whose pk attribute is the Python None).
* A held model instance (ModelInstance) is its own identity (ref) plus an
  association list of attribute values; Python getattr is modelled as
  association-list lookup.  A lookup of a missing attribute yields
  Value.vnone; the Python AttributeError path is not modelled because the
  data-model invariant of the module (every held instance is of the model
  descriptor type) guarantees the declared attributes exist.
* The external model metadata collaborator (model._meta) is modelled by
  ModelMeta: the declared field list in declaration order, where each field
  carries its to_python coercion, plus the display name used in error
  messages.  model._meta.get_field raising FieldDoesNotExist is modelled by
  Except.
* Python exceptions (NotImplementedError, FieldDoesNotExist, TypeError,
  DoesNotExist, MultipleObjectsReturned, IndexError) are modelled by the
  error type QueryError; fallible code returns Except QueryError.
* Python string methods used by the case-insensitive tests act on strings;
  Value.upper maps non-strings to themselves (the Python AttributeError on
  such values is outside every behaviour exercised here).
-/

namespace ModelCluster

/-- Reference to a model instance as a comparison value: identity, class,
ancestor classes (isinstance consults these; a class is among its own
ancestors), and optional primary key (none = unsaved). -/
structure PyObj where
  ref : Nat
  cls : Nat
  ancestors : List Nat
  pk : Option Int
  deriving DecidableEq, Repr

/-- A Python value that can be stored in a model attribute or passed as a
filter comparison value. -/
inductive Value where
  | vint : Int → Value
  | vstr : String → Value
  | vnone : Value
  | vobj : PyObj → Value
  deriving DecidableEq, Repr

/-- Python isinstance(x, C) for a model instance x and a class identifier C:
true when C is among the ancestors (method-resolution order) of x. -/
def isinstance (x : PyObj) (c : Nat) : Bool :=
  x.ancestors.contains c

/-- Python str.upper lifted to Value; non-strings are left unchanged (the
Python AttributeError on them is never exercised by this module's spec). -/
def Value.upper : Value → Value
  | .vstr s => .vstr s.toUpper
  | v => v

/-- Python substring containment needle in haystack for strings; False on
non-strings. -/
def Value.containsVal (haystack needle : Value) : Bool :=
  match haystack, needle with
  | .vstr h, .vstr n => n.isEmpty || (h.splitOn n).length ≥ 2
  | _, _ => false

/-- Python < on values: integer order on integers, lexicographic order on
strings, False elsewhere. -/
def Value.ltv : Value → Value → Bool
  | .vint a, .vint b => decide (a < b)
  | .vstr a, .vstr b => decide (a < b)
  | _, _ => false

/-- Python <= on values. -/
def Value.lev : Value → Value → Bool
  | .vint a, .vint b => decide (a ≤ b)
  | .vstr a, .vstr b => decide (a ≤ b)
  | _, _ => false

/-- Python > on values. -/
def Value.gtv : Value → Value → Bool
  | .vint a, .vint b => decide (b < a)
  | .vstr a, .vstr b => decide (b < a)
  | _, _ => false

/-- Python >= on values. -/
def Value.gev : Value → Value → Bool
  | .vint a, .vint b => decide (b ≤ a)
  | .vstr a, .vstr b => decide (b ≤ a)
  | _, _ => false

/-- A model instance held in a FakeQuerySet: its identity and its attribute
values. -/
structure ModelInstance where
  ref : Nat
  attrs : List (String × Value)
  deriving DecidableEq, Repr

/-- Python getattr(obj, name): association-list lookup of the attribute. -/
def getattr (obj : ModelInstance) (name : String) : Value :=
  match obj.attrs.find? (fun kv => kv.1 == name) with
  | some kv => kv.2
  | none => .vnone

/-- A declared model field: its name and its to_python coercion. -/
structure Field where
  name : String
  toPython : Value → Value

/-- The external model metadata (model and model._meta): declared fields in
declaration order and the display name (_meta.object_name). -/
structure ModelMeta where
  fields : List Field
  objectName : String

/-- The errors (Python exceptions) the module can raise. -/
inductive QueryError where
  | notImplemented : String → QueryError
  | fieldDoesNotExist : String → QueryError
  | typeError : String → QueryError
  | doesNotExist : String → QueryError
  | multipleObjectsReturned : String → QueryError
  | indexError : Nat → QueryError

/-- Helper for splitKey: walk the characters, splitting at each
non-overlapping occurrence of two consecutive underscores, left to right. -/
def splitKeyAux : List Char → List Char → List (List Char)
  | [], acc => [acc.reverse]
  | [c], acc => [(c :: acc).reverse]
  | c1 :: c2 :: rest, acc =>
    if c1 = '_' && c2 = '_' then acc.reverse :: splitKeyAux rest []
    else splitKeyAux (c2 :: rest) (c1 :: acc)

/-- Python key.split sep for the fixed separator of two underscores, as used
by FakeQuerySet._get_filters: splits at every non-overlapping occurrence,
left to right; a key without the separator yields the one-element list, and
adjacent separators yield empty segments, exactly as in Python.  (Written by
structural recursion so that concrete witnesses evaluate.) -/
def splitKey (key : String) : List String :=
  (splitKeyAux key.data []).map (fun cs => String.mk cs)

/-- model._meta.get_field(name): the declared field of that name, or a
FieldDoesNotExist error. -/
def ModelMeta.getField (model : ModelMeta) (name : String) : Except QueryError Field :=
  match model.fields.find? (fun f => f.name == name) with
  | some f => .ok f
  | none => .error (.fieldDoesNotExist name)

/-- test_exact from queryset.py: if the comparison value is a model
instance, unsaved values match by reference identity and saved values match
by (isinstance either way) and primary-key equality; otherwise the value is
coerced through the field and compared by equality. -/
def test_exact (model : ModelMeta) (attribute_name : String) (value : Value) :
    Except QueryError (ModelInstance → Bool) :=
  match value with
  | .vobj v =>
    match v.pk with
    | none =>
      .ok (fun obj =>
        match getattr obj attribute_name with
        | .vobj other => other.ref == v.ref
        | _ => false)
    | some _ =>
      .ok (fun obj =>
        match getattr obj attribute_name with
        | .vobj other =>
          if !(isinstance v other.cls || isinstance other v.cls) then false
          else v.pk == other.pk
        | _ => false)
  | _ =>
    match model.getField attribute_name with
    | .error e => .error e
    | .ok field =>
      let typed_value := field.toPython value
      .ok (fun obj => getattr obj attribute_name == typed_value)

/-- test_iexact from queryset.py. -/
def test_iexact (model : ModelMeta) (attribute_name : String) (value : Value) :
    Except QueryError (ModelInstance → Bool) :=
  match model.getField attribute_name with
  | .error e => .error e
  | .ok field =>
    let match_value := (field.toPython value).upper
    .ok (fun obj => (getattr obj attribute_name).upper == match_value)

/-- test_contains from queryset.py. -/
def test_contains (model : ModelMeta) (attribute_name : String) (value : Value) :
    Except QueryError (ModelInstance → Bool) :=
  match model.getField attribute_name with
  | .error e => .error e
  | .ok field =>
    let match_value := field.toPython value
    .ok (fun obj => (getattr obj attribute_name).containsVal match_value)

/-- test_icontains from queryset.py. -/
def test_icontains (model : ModelMeta) (attribute_name : String) (value : Value) :
    Except QueryError (ModelInstance → Bool) :=
  match model.getField attribute_name with
  | .error e => .error e
  | .ok field =>
    let match_value := (field.toPython value).upper
    .ok (fun obj => ((getattr obj attribute_name).upper).containsVal match_value)

/-- test_lt from queryset.py. -/
def test_lt (model : ModelMeta) (attribute_name : String) (value : Value) :
    Except QueryError (ModelInstance → Bool) :=
  match model.getField attribute_name with
  | .error e => .error e
  | .ok field =>
    let match_value := field.toPython value
    .ok (fun obj => (getattr obj attribute_name).ltv match_value)

/-- test_lte from queryset.py. -/
def test_lte (model : ModelMeta) (attribute_name : String) (value : Value) :
    Except QueryError (ModelInstance → Bool) :=
  match model.getField attribute_name with
  | .error e => .error e
  | .ok field =>
    let match_value := field.toPython value
    .ok (fun obj => (getattr obj attribute_name).lev match_value)

/-- test_gt from queryset.py. -/
def test_gt (model : ModelMeta) (attribute_name : String) (value : Value) :
    Except QueryError (ModelInstance → Bool) :=
  match model.getField attribute_name with
  | .error e => .error e
  | .ok field =>
    let match_value := field.toPython value
    .ok (fun obj => (getattr obj attribute_name).gtv match_value)

/-- test_gte from queryset.py. -/
def test_gte (model : ModelMeta) (attribute_name : String) (value : Value) :
    Except QueryError (ModelInstance → Bool) :=
  match model.getField attribute_name with
  | .error e => .error e
  | .ok field =>
    let match_value := field.toPython value
    .ok (fun obj => (getattr obj attribute_name).gev match_value)

/-- FILTER_EXPRESSION_TOKENS from queryset.py: the dispatch table from
operator token to test-function constructor, in source order. -/
def FILTER_EXPRESSION_TOKENS :
    List (String × (ModelMeta → String → Value → Except QueryError (ModelInstance → Bool))) :=
  [("exact", test_exact),
   ("iexact", test_iexact),
   ("contains", test_contains),
   ("icontains", test_icontains),
   ("lt", test_lt),
   ("lte", test_lte),
   ("gt", test_gt),
   ("gte", test_gte)]

/-- _build_test_function_from_filter from queryset.py: one clause means an
exact test, two clauses with a recognised token dispatch to that token's
constructor, anything else is a NotImplementedError. -/
def build_test_function_from_filter (model : ModelMeta) (key_clauses : List String)
    (val : Value) : Except QueryError (ModelInstance → Bool) :=
  match key_clauses with
  | [clause] => test_exact model clause val
  | [clause, op] =>
    match FILTER_EXPRESSION_TOKENS.find? (fun t => t.1 == op) with
    | some t => t.2 model clause val
    | none =>
      .error (.notImplemented
        ("Filter expression not supported: " ++ String.intercalate "__" key_clauses))
  | _ =>
    .error (.notImplemented
      ("Filter expression not supported: " ++ String.intercalate "__" key_clauses))

/-- Keyword filter arguments: a Python kwargs dict in insertion order.
Distinctness of keys is assumed by Python and stated as a hypothesis where a
claim needs it. -/
abbrev Kwargs := List (String × Value)

/-- FakeQuerySet from queryset.py: the model descriptor and the held ordered
sequence of instances. -/
structure FakeQuerySet where
  model : ModelMeta
  results : List ModelInstance

/-- FakeQuerySet._get_filters: build one test function per keyword, in
iteration order; the first unsupported keyword raises. -/
def FakeQuerySet.get_filters (model : ModelMeta) : Kwargs →
    Except QueryError (List (ModelInstance → Bool))
  | [] => .ok []
  | (key, val) :: rest =>
    match build_test_function_from_filter model (splitKey key) val with
    | .error e => .error e
    | .ok t =>
      match FakeQuerySet.get_filters model rest with
      | .error e => .error e
      | .ok ts => .ok (t :: ts)

/-- FakeQuerySet.filter: keep the instances passing every test, in held
order. -/
def FakeQuerySet.filter (qs : FakeQuerySet) (kwargs : Kwargs) :
    Except QueryError FakeQuerySet :=
  match FakeQuerySet.get_filters qs.model kwargs with
  | .error e => .error e
  | .ok filters =>
    .ok ⟨qs.model, qs.results.filter (fun obj => filters.all (fun test => test obj))⟩

/-- FakeQuerySet.exclude: keep the instances that do not pass all the tests
simultaneously, in held order. -/
def FakeQuerySet.exclude (qs : FakeQuerySet) (kwargs : Kwargs) :
    Except QueryError FakeQuerySet :=
  match FakeQuerySet.get_filters qs.model kwargs with
  | .error e => .error e
  | .ok filters =>
    .ok ⟨qs.model, qs.results.filter (fun obj => !(filters.all (fun test => test obj)))⟩

/-- FakeQuerySet.count: the number of held instances. -/
def FakeQuerySet.count (qs : FakeQuerySet) : Nat :=
  qs.results.length

/-- FakeQuerySet.get: filter, then raise DoesNotExist on zero matches,
return the single match, or raise MultipleObjectsReturned with the count in
the message. -/
def FakeQuerySet.get (qs : FakeQuerySet) (kwargs : Kwargs) :
    Except QueryError ModelInstance :=
  match qs.filter kwargs with
  | .error e => .error e
  | .ok results =>
    let result_count := results.count
    if result_count = 0 then
      .error (.doesNotExist (qs.model.objectName ++ " matching query does not exist."))
    else if result_count = 1 then
      match results.results[0]? with
      | some obj => .ok obj
      | none => .error (.indexError 0)
    else
      .error (.multipleObjectsReturned
        ("get() returned more than one " ++ qs.model.objectName ++
          " -- it returned " ++ toString result_count ++ "!"))

/-- The two result shapes of values_list: a list of tuples, or with flat a
list of single values. -/
inductive ValuesListResult where
  | tuples : List (List Value) → ValuesListResult
  | flat : List Value → ValuesListResult
  deriving DecidableEq, Repr

/-- FakeQuerySet.values_list: with no fields, all declared fields as tuples
in declaration order; with flat and more than one field, a TypeError; with
flat and one field, a flat list; otherwise tuples of the named fields. -/
def FakeQuerySet.values_list (qs : FakeQuerySet) (fields : List String)
    (flat : Bool) : Except QueryError ValuesListResult :=
  match fields with
  | [] =>
    let field_names := qs.model.fields.map (fun f => f.name)
    .ok (.tuples (qs.results.map (fun obj =>
      field_names.map (fun field_name => getattr obj field_name))))
  | field_name :: rest =>
    if flat then
      if rest ≠ [] then
        .error (.typeError
          "flat is not valid when values_list is called with more than one field.")
      else
        .ok (.flat (qs.results.map (fun obj => getattr obj field_name)))
    else
      .ok (.tuples (qs.results.map (fun obj =>
        fields.map (fun fn => getattr obj fn))))

/-!
Concrete witness data: a model with two integer fields x and y whose
to_python coercion is the identity (integers are already in canonical form),
display name Thing, and the two instances A(x=1, y=1) and B(x=1, y=2) used
by the spec's worked example.
-/

/-- An integer-like field: to_python is the identity on canonical values. -/
def intField (name : String) : Field :=
  ⟨name, fun v => v⟩

/-- The example model: fields x and y, display name Thing. -/
def exampleModel : ModelMeta :=
  ⟨[intField "x", intField "y"], "Thing"⟩

/-- Instance A with x = 1, y = 1. -/
def instA : ModelInstance :=
  ⟨1, [("x", .vint 1), ("y", .vint 1)]⟩

/-- Instance B with x = 1, y = 2. -/
def instB : ModelInstance :=
  ⟨2, [("x", .vint 1), ("y", .vint 2)]⟩

/-- The example Result Set holding A then B. -/
def exampleQS : FakeQuerySet :=
  ⟨exampleModel, [instA, instB]⟩

/-- The example keyword filter set x=1, y=1 (two keys). -/
def exampleKwargs : Kwargs :=
  [("x", .vint 1), ("y", .vint 1)]

/-- The test functions that get_filters compiles from exampleKwargs. -/
def exampleTests : List (ModelInstance → Bool) :=
  [fun obj => getattr obj "x" == Value.vint 1,
   fun obj => getattr obj "y" == Value.vint 1]

/-- Helper: filtering by a predicate and by its negation splits the length
of a list. -/
theorem length_filter_add_length_filter_not (l : List ModelInstance)
    (p : ModelInstance → Bool) :
    (l.filter p).length + (l.filter (fun a => !(p a))).length = l.length := by
  induction l with
  | nil => rfl
  | cons a l ih =>
    cases hp : p a <;> simp [List.filter_cons, hp] <;> omega

/-- C10: filter with zero keywords keeps every instance in order (the empty
conjunction holds vacuously), while exclude with zero keywords returns an
empty Result Set (every instance satisfies the empty conjunction and is
excluded). -/
theorem C10_empty_kwargs (qs : FakeQuerySet) :
    qs.filter [] = .ok ⟨qs.model, qs.results⟩ ∧
    qs.exclude [] = .ok ⟨qs.model, []⟩ := by
  constructor
  · unfold FakeQuerySet.filter FakeQuerySet.get_filters
    simp
  · unfold FakeQuerySet.exclude FakeQuerySet.get_filters
    simp

/-- C10 witness: the empty-kwargs behaviour evaluated on the concrete
example Result Set. -/
theorem C10_empty_kwargs_witness :
    exampleQS.filter [] = .ok ⟨exampleModel, [instA, instB]⟩ ∧
    exampleQS.exclude [] = .ok ⟨exampleModel, []⟩ :=
  C10_empty_kwargs exampleQS

/-- C1: exclude keeps exactly the instances of the Result Set, in relative
order, that do not satisfy all the compiled test functions simultaneously;
on the worked example with A(x=1, y=1) and B(x=1, y=2), exclude x=1, y=1
keeps B but not A, while filter x=1, y=1 keeps only A. -/
theorem C1_exclude_keeps_non_conjunction_matches :
    (∀ (qs : FakeQuerySet) (kwargs : Kwargs) (tests : List (ModelInstance → Bool)),
        FakeQuerySet.get_filters qs.model kwargs = .ok tests →
        qs.exclude kwargs =
          .ok ⟨qs.model,
            qs.results.filter (fun obj => !(tests.all (fun test => test obj)))⟩) ∧
    exampleQS.exclude exampleKwargs = .ok ⟨exampleModel, [instB]⟩ ∧
    exampleQS.filter exampleKwargs = .ok ⟨exampleModel, [instA]⟩ := by
  refine ⟨?_, rfl, rfl⟩
  intro qs kwargs tests h
  unfold FakeQuerySet.exclude
  rw [h]

/-- C1 witness: the general exclusion law applied to the concrete example
Result Set, keyword set and compiled tests. -/
theorem C1_witness :
    exampleQS.exclude exampleKwargs =
      .ok ⟨exampleModel,
        exampleQS.results.filter
          (fun obj => !(exampleTests.all (fun test => test obj)))⟩ :=
  C1_exclude_keeps_non_conjunction_matches.1 exampleQS exampleKwargs exampleTests rfl

/-- C2 counterexample: the claim says filter and exclude partition the
Result Set only when kwargs has a single key and that for multi-key kwargs
the union of the two results need not equal the original instances; on the
two-key keyword set x=1, y=1 over A and B, filter keeps exactly A, exclude
keeps exactly B, and their concatenation is exactly the original held
sequence — a two-key partition. -/
theorem C2_counterexample :
    exampleKwargs.length = 2 ∧
    exampleQS.filter exampleKwargs = .ok ⟨exampleModel, [instA]⟩ ∧
    exampleQS.exclude exampleKwargs = .ok ⟨exampleModel, [instB]⟩ ∧
    [instA] ++ [instB] = exampleQS.results :=
  ⟨rfl, rfl, rfl, rfl⟩

/-- C2 (amended): for every keyword set whose filters compile, filter and
exclude always partition the Result Set, whatever the number of keys:
filter keeps exactly the instances satisfying the full conjunction, exclude
keeps exactly the rest, the two lengths sum to the original length, and
every held instance lands in exactly one of the two results. -/
theorem C2_filter_exclude_partition (qs : FakeQuerySet) (kwargs : Kwargs)
    (tests : List (ModelInstance → Bool))
    (h : FakeQuerySet.get_filters qs.model kwargs = .ok tests)
    (fres eres : FakeQuerySet)
    (hf : qs.filter kwargs = .ok fres) (he : qs.exclude kwargs = .ok eres) :
    fres.results = qs.results.filter (fun obj => tests.all (fun test => test obj)) ∧
    eres.results = qs.results.filter (fun obj => !(tests.all (fun test => test obj))) ∧
    fres.results.length + eres.results.length = qs.results.length ∧
    ∀ obj ∈ qs.results, (obj ∈ fres.results ↔ obj ∉ eres.results) := by
  unfold FakeQuerySet.filter at hf
  unfold FakeQuerySet.exclude at he
  rw [h] at hf he
  cases hf
  cases he
  refine ⟨rfl, rfl, length_filter_add_length_filter_not _ _, ?_⟩
  intro obj hobj
  simp [List.mem_filter, hobj]

/-- C2 witness: the partition law applied to the concrete example. -/
theorem C2_partition_witness :
    FakeQuerySet.results ⟨exampleModel, [instA]⟩ =
      exampleQS.results.filter (fun obj => exampleTests.all (fun test => test obj)) ∧
    FakeQuerySet.results ⟨exampleModel, [instB]⟩ =
      exampleQS.results.filter (fun obj => !(exampleTests.all (fun test => test obj))) ∧
    (FakeQuerySet.results ⟨exampleModel, [instA]⟩).length +
        (FakeQuerySet.results ⟨exampleModel, [instB]⟩).length =
      exampleQS.results.length ∧
    ∀ obj ∈ exampleQS.results,
      (obj ∈ FakeQuerySet.results ⟨exampleModel, [instA]⟩ ↔
        obj ∉ FakeQuerySet.results ⟨exampleModel, [instB]⟩) :=
  C2_filter_exclude_partition exampleQS exampleKwargs exampleTests rfl
    ⟨exampleModel, [instA]⟩ ⟨exampleModel, [instB]⟩ rfl rfl

/-- C3: get first filters by the keyword set; with zero matches it raises
the does-not-exist error, with exactly one match it returns that very held
instance, and with two or more matches it raises the multiple-results error
whose message carries the exact match count. -/
theorem C3_get_semantics (qs : FakeQuerySet) (kwargs : Kwargs)
    (fres : FakeQuerySet) (hf : qs.filter kwargs = .ok fres) :
    (fres.results = [] →
      qs.get kwargs =
        .error (.doesNotExist (qs.model.objectName ++ " matching query does not exist."))) ∧
    (∀ r, fres.results = [r] → qs.get kwargs = .ok r ∧ r ∈ qs.results) ∧
    (2 ≤ fres.results.length →
      qs.get kwargs =
        .error (.multipleObjectsReturned
          ("get() returned more than one " ++ qs.model.objectName ++
            " -- it returned " ++ toString fres.results.length ++ "!"))) := by
  have hmem : ∀ r ∈ fres.results, r ∈ qs.results := by
    unfold FakeQuerySet.filter at hf
    cases hg : FakeQuerySet.get_filters qs.model kwargs with
    | error e => rw [hg] at hf; cases hf
    | ok filters =>
      rw [hg] at hf
      cases hf
      intro r hr
      exact List.mem_of_mem_filter hr
  refine ⟨?_, ?_, ?_⟩
  · intro hempty
    unfold FakeQuerySet.get
    rw [hf]
    simp [FakeQuerySet.count, hempty]
  · intro r hone
    refine ⟨?_, hmem r (by rw [hone]; exact List.mem_singleton_self r)⟩
    unfold FakeQuerySet.get
    rw [hf]
    simp [FakeQuerySet.count, hone]
  · intro htwo
    unfold FakeQuerySet.get
    rw [hf]
    have h0 : fres.results.length ≠ 0 := by omega
    have h1 : fres.results.length ≠ 1 := by omega
    simp [FakeQuerySet.count, h0, h1]

/-- C3 witness: on the example Result Set both A and B match x=1, so get
raises the multiple-results error whose message contains 2, and the
one-match and zero-match branches are exercised on y=1 and y=3. -/
theorem C3_get_witness :
    exampleQS.get [("x", Value.vint 1)] =
      .error (.multipleObjectsReturned
        "get() returned more than one Thing -- it returned 2!") ∧
    exampleQS.get [("y", Value.vint 1)] = .ok instA ∧ instA ∈ exampleQS.results ∧
    exampleQS.get [("y", Value.vint 3)] =
      .error (.doesNotExist "Thing matching query does not exist.") := by
  have hmany := (C3_get_semantics exampleQS [("x", Value.vint 1)]
    ⟨exampleModel, [instA, instB]⟩ rfl).2.2 (by decide)
  have hone := (C3_get_semantics exampleQS [("y", Value.vint 1)]
    ⟨exampleModel, [instA]⟩ rfl).2.1 instA rfl
  have hzero := (C3_get_semantics exampleQS [("y", Value.vint 3)]
    ⟨exampleModel, []⟩ rfl).1 rfl
  exact ⟨hmany, hone.1, hone.2, hzero⟩

/-- C4 counterexample: the claim says that whenever flat is set any number
of requested fields other than one — including zero — is a usage error; but
values_list with zero fields and flat set returns the all-fields tuple rows
instead of raising. -/
theorem C4_counterexample :
    exampleQS.values_list [] true =
      .ok (.tuples [[Value.vint 1, Value.vint 1], [Value.vint 1, Value.vint 2]]) := rfl

/-- C4 (amended): values_list projects each held instance, in held order,
to the tuple of the named fields, or of all declared fields in declaration
order when no fields are named — in which case the flat flag is ignored;
when at least one field is named and flat is set, more than one field is a
usage error and exactly one field yields the flat list of scalars. -/
theorem C4_values_list (qs : FakeQuerySet) (fields : List String) (flat : Bool) :
    (fields = [] →
      qs.values_list fields flat =
        .ok (.tuples (qs.results.map (fun obj =>
          qs.model.fields.map (fun f => getattr obj f.name))))) ∧
    (∀ f1 f2 rest, fields = f1 :: f2 :: rest → flat = true →
      qs.values_list fields flat =
        .error (.typeError
          "flat is not valid when values_list is called with more than one field.")) ∧
    (∀ f, fields = [f] → flat = true →
      qs.values_list fields flat = .ok (.flat (qs.results.map (fun obj => getattr obj f)))) ∧
    (fields ≠ [] → flat = false →
      qs.values_list fields flat =
        .ok (.tuples (qs.results.map (fun obj =>
          fields.map (fun fn => getattr obj fn))))) := by
  refine ⟨?_, ?_, ?_, ?_⟩
  · intro hnil
    subst hnil
    simp [FakeQuerySet.values_list, List.map_map, Function.comp]
  · intro f1 f2 rest hcons hflat
    subst hcons
    subst hflat
    simp [FakeQuerySet.values_list]
  · intro f hone hflat
    subst hone
    subst hflat
    rfl
  · intro hne hflat
    subst hflat
    cases fields with
    | nil => exact absurd rfl hne
    | cons f rest => rfl

/-- C4 witness: the amended projection law evaluated on the example Result
Set; two fields give rows of two values, one flat field gives scalars, and
two fields with flat raise the usage error. -/
theorem C4_values_list_witness :
    exampleQS.values_list ["x", "y"] false =
      .ok (.tuples [[Value.vint 1, Value.vint 1], [Value.vint 1, Value.vint 2]]) ∧
    exampleQS.values_list ["x"] true = .ok (.flat [Value.vint 1, Value.vint 1]) ∧
    exampleQS.values_list ["x", "y"] true =
      .error (.typeError
        "flat is not valid when values_list is called with more than one field.") := by
  have hrows := (C4_values_list exampleQS ["x", "y"] false).2.2.2 (by decide) rfl
  have hflat := (C4_values_list exampleQS ["x"] true).2.2.1 "x" rfl rfl
  have herr := (C4_values_list exampleQS ["x", "y"] true).2.1 "x" "y" [] rfl rfl
  exact ⟨hrows, hflat, herr⟩

/-!
Witness data for the exact-match tests against model instances: class 1 is
a base class, class 2 a subclass of it (its ancestors list contains both).
-/

/-- An unsaved comparison instance: identity 10, class 1, no primary key. -/
def objU1 : PyObj := ⟨10, 1, [1], none⟩

/-- An unsaved instance with the same class and fields as objU1 but a
distinct identity: equal-but-distinct. -/
def objU2 : PyObj := ⟨11, 1, [1], none⟩

/-- A saved comparison instance: identity 20, class 1, primary key 5. -/
def objS : PyObj := ⟨20, 1, [1], some 5⟩

/-- A saved instance of the subclass (class 2, ancestors 2 and 1) with the
same primary key 5 but a distinct identity. -/
def objSub : PyObj := ⟨21, 2, [2, 1], some 5⟩

/-- A saved instance of exactly class 1 but with primary key 6. -/
def objS6 : PyObj := ⟨22, 1, [1], some 6⟩

/-- An instance whose attribute w holds objU1 itself. -/
def instC : ModelInstance := ⟨30, [("w", .vobj objU1)]⟩

/-- An instance whose attribute w holds the equal-but-distinct objU2. -/
def instD : ModelInstance := ⟨31, [("w", .vobj objU2)]⟩

/-- An instance whose attribute w holds the saved subclass instance. -/
def instE : ModelInstance := ⟨32, [("w", .vobj objSub)]⟩

/-- An instance whose attribute w holds the saved same-class instance with
the other primary key. -/
def instF : ModelInstance := ⟨33, [("w", .vobj objS6)]⟩

/-- The test function test_exact compiles for the unsaved objU1. -/
def tUnsaved : ModelInstance → Bool := fun obj =>
  match getattr obj "w" with
  | .vobj other => other.ref == objU1.ref
  | _ => false

/-- The test function test_exact compiles for the saved objS. -/
def tSaved : ModelInstance → Bool := fun obj =>
  match getattr obj "w" with
  | .vobj other =>
    if !(isinstance objS other.cls || isinstance other objS.cls) then false
    else objS.pk == other.pk
  | _ => false

/-- C5: when the comparison value of an exact filter is an unsaved model
instance, the compiled test matches an instance exactly when its attribute
is the very same in-memory object (reference identity); and the branch
performs no field lookup or coercion — the compiled test is independent of
the model metadata. -/
theorem C5_exact_unsaved_identity (m1 m2 : ModelMeta) (attr : String)
    (v : PyObj) (hv : v.pk = none) (t : ModelInstance → Bool)
    (ht : test_exact m1 attr (.vobj v) = .ok t) :
    (∀ obj, t obj = true ↔
      ∃ o : PyObj, getattr obj attr = .vobj o ∧ o.ref = v.ref) ∧
    test_exact m2 attr (.vobj v) = test_exact m1 attr (.vobj v) := by
  obtain ⟨vref, vcls, vanc, vpk⟩ := v
  dsimp only at hv
  subst hv
  have hred : test_exact m1 attr (.vobj ⟨vref, vcls, vanc, none⟩) =
      .ok (fun obj =>
        match getattr obj attr with
        | .vobj other => other.ref == vref
        | _ => false) := rfl
  rw [hred] at ht
  injection ht with ht
  subst ht
  constructor
  · intro obj
    cases hg : getattr obj attr with
    | vobj o =>
      simp only [hg, beq_iff_eq]
      constructor
      · intro hr
        exact ⟨o, rfl, hr⟩
      · rintro ⟨o2, ho2, hr⟩
        cases ho2
        exact hr
    | vint n => simp [hg]
    | vstr s => simp [hg]
    | vnone => simp [hg]
  · rfl

/-- C5 witness: the identity law instantiated for objU1 held in instC; the
equal-but-distinct objU2 in instD does not match, and the compiled test is
the same under a different model metadata. -/
theorem C5_witness :
    tUnsaved instC = true ∧ tUnsaved instD = false ∧
    test_exact ⟨[], "Other"⟩ "w" (.vobj objU1) = test_exact exampleModel "w" (.vobj objU1) := by
  have h := C5_exact_unsaved_identity exampleModel ⟨[], "Other"⟩ "w" objU1 rfl
    tUnsaved rfl
  refine ⟨(h.1 instC).mpr ⟨objU1, rfl, rfl⟩, ?_, h.2⟩
  cases hb : tUnsaved instD with
  | false => rfl
  | true =>
    rcases (h.1 instD).mp hb with ⟨o, ho, hr⟩
    have : o = objU2 := by
      have hD : getattr instD "w" = .vobj objU2 := rfl
      rw [hD] at ho
      cases ho
      rfl
    rw [this] at hr
    cases hr

/-- C6: when the comparison value of an exact filter is a saved model
instance, the compiled test matches an instance exactly when the attribute
holds a model instance whose class is compatible (isinstance in either
direction) and whose primary key equals the comparison value's. -/
theorem C6_exact_saved_pk (model : ModelMeta) (attr : String)
    (v : PyObj) (k : Int) (hv : v.pk = some k) (t : ModelInstance → Bool)
    (ht : test_exact model attr (.vobj v) = .ok t) :
    ∀ obj, t obj = true ↔
      ∃ o : PyObj, getattr obj attr = .vobj o ∧
        (isinstance v o.cls = true ∨ isinstance o v.cls = true) ∧
        v.pk = o.pk := by
  obtain ⟨vref, vcls, vanc, vpk⟩ := v
  dsimp only at hv
  subst hv
  have hred : test_exact model attr (.vobj ⟨vref, vcls, vanc, some k⟩) =
      .ok (fun obj =>
        match getattr obj attr with
        | .vobj other =>
          if !(isinstance ⟨vref, vcls, vanc, some k⟩ other.cls ||
              isinstance other vcls) then false
          else some k == other.pk
        | _ => false) := rfl
  rw [hred] at ht
  injection ht with ht
  subst ht
  intro obj
  cases hg : getattr obj attr with
  | vobj o =>
    simp only [hg]
    by_cases hcls : (isinstance ⟨vref, vcls, vanc, some k⟩ o.cls ||
        isinstance o vcls) = true
    · simp only [hcls, Bool.not_true, Bool.false_eq_true, if_false, beq_iff_eq]
      constructor
      · intro hpk
        refine ⟨o, rfl, ?_, hpk⟩
        rcases Bool.or_eq_true_iff.mp hcls with h1 | h1
        · exact Or.inl h1
        · exact Or.inr h1
      · rintro ⟨o2, ho2, _, hpk⟩
        cases ho2
        exact hpk
    · rw [Bool.not_eq_true] at hcls
      simp only [hcls, Bool.not_false, if_true]
      constructor
      · intro hfalse
        cases hfalse
      · rintro ⟨o2, ho2, hor, _⟩
        cases ho2
        rcases hor with h1 | h1
        · exact absurd (Bool.or_eq_true_iff.mpr (Or.inl h1)) (by rw [hcls]; simp)
        · exact absurd (Bool.or_eq_true_iff.mpr (Or.inr h1)) (by rw [hcls]; simp)
  | vint n => simp [hg]
  | vstr s => simp [hg]
  | vnone => simp [hg]

/-- C6 witness: the saved objS (class 1, pk 5) matches instE, whose
attribute holds a subclass instance with pk 5 and a different identity, and
does not match instF, whose attribute holds a same-class instance with
pk 6. -/
theorem C6_witness :
    tSaved instE = true ∧ tSaved instF = false := by
  have h := C6_exact_saved_pk exampleModel "w" objS 5 rfl tSaved rfl
  refine ⟨(h instE).mpr ⟨objSub, rfl, Or.inr (by decide), rfl⟩, ?_⟩
  cases hb : tSaved instF with
  | false => rfl
  | true =>
    rcases (h instF).mp hb with ⟨o, ho, _, hpk⟩
    have : o = objS6 := by
      have hF : getattr instF "w" = .vobj objS6 := rfl
      rw [hF] at ho
      cases ho
      rfl
    rw [this] at hpk
    cases hpk

/-- Helper: compiling the filters of concatenated keyword lists compiles
each part in order and concatenates the test lists, with the first error
winning. -/
theorem get_filters_append (model : ModelMeta) (f1 f2 : Kwargs) :
    FakeQuerySet.get_filters model (f1 ++ f2) =
      match FakeQuerySet.get_filters model f1 with
      | .error e => .error e
      | .ok t1 =>
        match FakeQuerySet.get_filters model f2 with
        | .error e => .error e
        | .ok t2 => .ok (t1 ++ t2) := by
  induction f1 with
  | nil =>
    simp only [List.nil_append, FakeQuerySet.get_filters]
    cases h2 : FakeQuerySet.get_filters model f2 with
    | error e => rfl
    | ok t2 => rfl
  | cons kv rest ih =>
    obtain ⟨key, val⟩ := kv
    simp only [List.cons_append, FakeQuerySet.get_filters, List.append_eq]
    rw [ih]
    cases hb : build_test_function_from_filter model (splitKey key) val with
    | error e => rfl
    | ok t =>
      cases h1 : FakeQuerySet.get_filters model rest with
      | error e => rfl
      | ok t1 =>
        cases h2 : FakeQuerySet.get_filters model f2 with
        | error e => rfl
        | ok t2 => simp

/-- Helper: filtering by a conjunction in either operand order gives the
same list. -/
theorem filter_and_comm (l : List ModelInstance) (p q : ModelInstance → Bool) :
    l.filter (fun a => p a && q a) = l.filter (fun a => q a && p a) := by
  apply List.filter_congr
  intro a _
  rw [Bool.and_comm]

/-- C7: chaining filter calls with keyword sets having disjoint keys equals
one filter call on the merged keyword set (the merged Python dict iterates
the first set's keys then the second's): the same instances survive in the
same order. -/
theorem C7_filter_chain (qs : FakeQuerySet) (f1 f2 : Kwargs)
    (hdisj : ∀ k, k ∈ f1.map Prod.fst → k ∉ f2.map Prod.fst) :
    (match qs.filter f1 with
     | .error e => .error e
     | .ok qs1 => qs1.filter f2) = qs.filter (f1 ++ f2) := by
  unfold FakeQuerySet.filter
  rw [get_filters_append qs.model f1 f2]
  cases h1 : FakeQuerySet.get_filters qs.model f1 with
  | error e => rfl
  | ok t1 =>
    dsimp only
    cases h2 : FakeQuerySet.get_filters qs.model f2 with
    | error e => rfl
    | ok t2 =>
      dsimp only
      have hl : (qs.results.filter (fun obj => t1.all fun test => test obj)).filter
            (fun obj => t2.all fun test => test obj) =
          qs.results.filter (fun obj => (t1 ++ t2).all fun test => test obj) := by
        rw [List.filter_filter]
        simp only [List.all_append]
        exact filter_and_comm qs.results
          (fun obj => t2.all fun test => test obj)
          (fun obj => t1.all fun test => test obj)
      rw [hl]

/-- C7 witness: chaining the two single-key filters x=1 and y=1 over the
example Result Set equals the one merged two-key filter. -/
theorem C7_witness :
    (match exampleQS.filter [("x", Value.vint 1)] with
     | .error e => .error e
     | .ok qs1 => qs1.filter [("y", Value.vint 1)]) =
      exampleQS.filter ([("x", Value.vint 1)] ++ [("y", Value.vint 1)]) :=
  C7_filter_chain exampleQS [("x", Value.vint 1)] [("y", Value.vint 1)]
    (by intro k hk; simp at hk; simp [hk])

/-- C8: a filter key splitting into more than two segments, or into exactly
two whose second is not a recognised operator token, makes filter and
exclude fail with the unsupported-expression error for every held sequence
(the error is decided at call time, before any instance is evaluated);
one-segment keys compile to the exact test and two-segment keys with a
recognised token compile through that token's constructor. -/
theorem C8_unsupported_filter_expression :
    (∀ (model : ModelMeta) (results : List ModelInstance) (key : String)
        (val : Value) (c1 c2 : String) (rest : List String),
        splitKey key = c1 :: c2 :: rest →
        (rest ≠ [] ∨ FILTER_EXPRESSION_TOKENS.find? (fun tk => tk.1 == c2) = none) →
        FakeQuerySet.filter ⟨model, results⟩ [(key, val)] =
          .error (.notImplemented
            ("Filter expression not supported: " ++
              String.intercalate "__" (splitKey key))) ∧
        FakeQuerySet.exclude ⟨model, results⟩ [(key, val)] =
          .error (.notImplemented
            ("Filter expression not supported: " ++
              String.intercalate "__" (splitKey key)))) ∧
    (∀ (model : ModelMeta) (clause : String) (val : Value),
        build_test_function_from_filter model [clause] val =
          test_exact model clause val) ∧
    (∀ (model : ModelMeta) (clause op : String) (val : Value)
        (entry : String ×
          (ModelMeta → String → Value → Except QueryError (ModelInstance → Bool))),
        FILTER_EXPRESSION_TOKENS.find? (fun tk => tk.1 == op) = some entry →
        build_test_function_from_filter model [clause, op] val =
          entry.2 model clause val) := by
  refine ⟨?_, ?_, ?_⟩
  · intro model results key val c1 c2 rest hsplit hbad
    have hbuild : build_test_function_from_filter model (splitKey key) val =
        .error (.notImplemented
          ("Filter expression not supported: " ++
            String.intercalate "__" (splitKey key))) := by
      rw [hsplit]
      rcases hbad with hne | hfind
      · cases rest with
        | nil => exact absurd rfl hne
        | cons r rs => rfl
      · cases rest with
        | nil =>
          simp only [build_test_function_from_filter]
          rw [hfind]
        | cons r rs => rfl
    constructor
    · unfold FakeQuerySet.filter FakeQuerySet.get_filters
      rw [hbuild]
    · unfold FakeQuerySet.exclude FakeQuerySet.get_filters
      rw [hbuild]
  · intro model clause val
    rfl
  · intro model clause op val entry hfind
    simp only [build_test_function_from_filter]
    rw [hfind]

/-- C8 witness: the three-segment key and an unrecognised two-segment key
fail eagerly on a non-empty Result Set with the exact message, while a
one-segment key compiles to the exact test and a recognised token key
compiles to its constructor. -/
theorem C8_witness :
    FakeQuerySet.filter ⟨exampleModel, [instA]⟩ [("x__y__z", Value.vint 1)] =
      .error (.notImplemented "Filter expression not supported: x__y__z") ∧
    FakeQuerySet.exclude ⟨exampleModel, [instA]⟩ [("x__y__z", Value.vint 1)] =
      .error (.notImplemented "Filter expression not supported: x__y__z") ∧
    FakeQuerySet.filter ⟨exampleModel, [instA]⟩ [("x__near", Value.vint 1)] =
      .error (.notImplemented "Filter expression not supported: x__near") ∧
    build_test_function_from_filter exampleModel ["x"] (Value.vint 1) =
      test_exact exampleModel "x" (Value.vint 1) ∧
    build_test_function_from_filter exampleModel ["y", "lte"] (Value.vint 1) =
      test_lte exampleModel "y" (Value.vint 1) := by
  have h3 := C8_unsupported_filter_expression.1 exampleModel [instA] "x__y__z"
    (Value.vint 1) "x" "y" ["z"] (by decide) (Or.inl (by decide))
  have h2 := C8_unsupported_filter_expression.1 exampleModel [instA] "x__near"
    (Value.vint 1) "x" "near" [] (by decide) (Or.inr rfl)
  have h1 := C8_unsupported_filter_expression.2.1 exampleModel "x" (Value.vint 1)
  have hl := C8_unsupported_filter_expression.2.2 exampleModel "y" "lte"
    (Value.vint 1) ("lte", test_lte) rfl
  exact ⟨h3.1, h3.2, h2.1, h1, hl⟩

/-!
Model of the _result_cache property.  Its setter runs
self.results = list(val): it materialises a fresh Python list object from
the assigned iterable.  To reason about shared mutable backing, Python list
objects are modelled by a small heap (ListStore): a cell per list object,
addressed by reference; in-place mutation of a list object is a write to
its cell.  A FakeQuerySetRef holds the reference of its results list.
-/

/-- The heap of Python list objects: one cell of instances per reference. -/
structure ListStore where
  cells : List (List ModelInstance)

/-- Reading the contents of the list object at a reference. -/
def ListStore.read (s : ListStore) (r : Nat) : List ModelInstance :=
  (s.cells[r]?).getD []

/-- In-place mutation of the list object at a reference. -/
def ListStore.write (s : ListStore) (r : Nat) (xs : List ModelInstance) : ListStore :=
  ⟨s.cells.set r xs⟩

/-- Allocating a fresh list object: Python list(val) builds a new list. -/
def ListStore.alloc (s : ListStore) (xs : List ModelInstance) : ListStore × Nat :=
  (⟨s.cells ++ [xs]⟩, s.cells.length)

/-- A FakeQuerySet whose results field is a reference into the heap. -/
structure FakeQuerySetRef where
  model : ModelMeta
  resultsRef : Nat

/-- _get_result_cache: reads self.results. -/
def FakeQuerySetRef.get_result_cache (s : ListStore) (qs : FakeQuerySetRef) :
    List ModelInstance :=
  s.read qs.resultsRef

/-- _set_result_cache: self.results = list(val) — allocate a fresh list
object holding the assigned iterable's elements and point results at it. -/
def FakeQuerySetRef.set_result_cache (s : ListStore) (qs : FakeQuerySetRef)
    (valRef : Nat) : ListStore × FakeQuerySetRef :=
  let copied := s.read valRef
  let sr := s.alloc copied
  (sr.1, { qs with resultsRef := sr.2 })

/-- C9: assigning to the result-cache alias replaces the held sequence with
a fresh list built from the assigned iterable: reading the property back
yields exactly the assigned elements in order, later in-place mutation of
the assigned list or of the previously-held list does not change what the
Result Set reads back, and the previously-held list itself is untouched by
the assignment. -/
theorem C9_result_cache_alias (s : ListStore) (qs : FakeQuerySetRef)
    (valRef : Nat) (s2 : ListStore) (qs2 : FakeQuerySetRef)
    (hold : qs.resultsRef < s.cells.length) (hval : valRef < s.cells.length)
    (hset : FakeQuerySetRef.set_result_cache s qs valRef = (s2, qs2)) :
    FakeQuerySetRef.get_result_cache s2 qs2 = s.read valRef ∧
    (∀ xs, FakeQuerySetRef.get_result_cache (s2.write valRef xs) qs2 = s.read valRef) ∧
    (∀ xs, FakeQuerySetRef.get_result_cache (s2.write qs.resultsRef xs) qs2 =
      s.read valRef) ∧
    s2.read qs.resultsRef = s.read qs.resultsRef := by
  have hs2 : s2 = ⟨s.cells ++ [s.read valRef]⟩ := by
    have := congrArg Prod.fst hset
    exact this.symm
  have hq2 : qs2.resultsRef = s.cells.length := by
    have := congrArg (fun p => p.2.resultsRef) hset
    exact this.symm
  have hfresh : ∀ (i : Nat) (xs : List ModelInstance),
      ((s.cells.set i xs) ++ [s.read valRef])[s.cells.length]? =
        some (s.read valRef) := by
    intro i xs
    rw [List.getElem?_append_right (by simp)]
    simp [List.length_set]
  refine ⟨?_, ?_, ?_, ?_⟩
  · unfold FakeQuerySetRef.get_result_cache ListStore.read
    rw [hs2, hq2]
    simp [ListStore.read]
  · intro xs
    unfold FakeQuerySetRef.get_result_cache ListStore.read ListStore.write
    rw [hs2, hq2]
    simp only [List.set_append_left _ _ hval]
    rw [hfresh valRef xs]
    rfl
  · intro xs
    unfold FakeQuerySetRef.get_result_cache ListStore.read ListStore.write
    rw [hs2, hq2]
    simp only [List.set_append_left _ _ hold]
    rw [hfresh qs.resultsRef xs]
    rfl
  · unfold ListStore.read
    rw [hs2]
    simp [List.getElem?_append, hold]

/-- Concrete heap for the C9 witness: cell 0 is the previously-held
sequence of the Result Set, cell 1 the assigned list holding A then B. -/
def exampleStore : ListStore :=
  ⟨[[instC], [instA, instB]]⟩

/-- The Result Set before assignment: its results live in cell 0. -/
def exampleQSRef : FakeQuerySetRef :=
  ⟨exampleModel, 0⟩

/-- C9 witness: assigning cell 1 (the list A, B) to the result cache of the
example Result Set, then reading back, yields A then B, even after the
assigned list or the old list is mutated in place to hold D. -/
theorem C9_witness :
    FakeQuerySetRef.get_result_cache
        (FakeQuerySetRef.set_result_cache exampleStore exampleQSRef 1).1
        (FakeQuerySetRef.set_result_cache exampleStore exampleQSRef 1).2 =
      [instA, instB] ∧
    FakeQuerySetRef.get_result_cache
        (((FakeQuerySetRef.set_result_cache exampleStore exampleQSRef 1).1).write 1 [instD])
        (FakeQuerySetRef.set_result_cache exampleStore exampleQSRef 1).2 =
      [instA, instB] ∧
    FakeQuerySetRef.get_result_cache
        (((FakeQuerySetRef.set_result_cache exampleStore exampleQSRef 1).1).write 0 [instD])
        (FakeQuerySetRef.set_result_cache exampleStore exampleQSRef 1).2 =
      [instA, instB] ∧
    ((FakeQuerySetRef.set_result_cache exampleStore exampleQSRef 1).1).read 0 =
      exampleStore.read 0 := by
  have h := C9_result_cache_alias exampleStore exampleQSRef 1
    (FakeQuerySetRef.set_result_cache exampleStore exampleQSRef 1).1
    (FakeQuerySetRef.set_result_cache exampleStore exampleQSRef 1).2
    (by decide) (by decide) rfl
  exact ⟨h.1, h.2.1 [instD], h.2.2.1 [instD], h.2.2.2⟩

end ModelCluster
